import Mathlib

/-!
Verification development for the trustpilot-api-test repository.

The repository has two components the claims concern:
  * `load_data.py` — an ingestion pipeline: `clean_data` (pandas cleaning of raw
    CSV rows), `upsert_records` (batched INSERT ... ON CONFLICT DO UPDATE keyed
    on `Review_Id`, all batches executed inside a single `engine.begin()`
    transaction), and `load_csv_to_db` (read CSV, clean, upsert).
  * `main.py` — a FastAPI read service: `stream_rows_for_stmt` (a generator that
    yields a CSV header chunk, then acquires a session and yields one CSV chunk
    per matching row, closing the session in a `finally` block), and the
    endpoint handlers `business_reviews_csv` and `user_reviews_csv`.

The embedding below translates these functions into Lean: pandas DataFrames
become lists of records, the database table becomes a map from the primary key
`Review_Id` to the stored row, and the generator becomes an explicit chunk
list plus an event-trace model for its session lifecycle.
-/

/-- Python scalar values as they may appear in the `Review_Rating` column of a
pandas DataFrame loaded from CSV.  `pyInt` covers Python `int` (and `bool`,
which is an `int` subtype: `True` is modelled as `pyInt 1`); `pyFloat` covers
finite Python `float` values (represented exactly as rationals); `pyNaN` is the
float NaN (for which `1 <= x` is `False` in Python); `pyStr` and `pyNone` are
non-numeric values. -/
inductive PyScalar where
  | pyInt (n : Int)
  | pyFloat (q : ℚ)
  | pyNaN
  | pyStr (s : String)
  | pyNone
  deriving Repr, DecidableEq

/-- A raw CSV row after the column rename in `load_csv_to_db` (load_data.py
lines 117-130): the date field is still the raw string from the CSV, the rating
is an arbitrary Python scalar.  Nullable text fields are `Option String`
(pandas missing values). -/
structure RawRecord where
  Review_Id : String
  Reviewer_Name : Option String
  Review_Title : Option String
  Review_Rating : PyScalar
  Review_Content : Option String
  Review_IP_Address : Option String
  Business_Id : Option String
  Business_Name : Option String
  Reviewer_Id : Option String
  Email_Address : Option String
  Reviewer_Country : Option String
  Review_Date : String
  deriving Repr, DecidableEq

/-- A stored review row, mirroring the `TPReview` model of models.py: primary
key `Review_Id`, nullable secondary fields, and `Review_Date` parsed to a
timestamp (modelled as `Option Nat` ticks; rows produced by the cleaning
pipeline always carry `some` date).  `Review_Rating` keeps the Python scalar
that was upserted (SQLite stores the value dynamically). -/
structure TPReview where
  Review_Id : String
  Reviewer_Name : Option String
  Review_Title : Option String
  Review_Rating : PyScalar
  Review_Content : Option String
  Review_IP_Address : Option String
  Business_Id : Option String
  Business_Name : Option String
  Reviewer_Id : Option String
  Email_Address : Option String
  Reviewer_Country : Option String
  Review_Date : Option Nat
  deriving Repr, DecidableEq

/-- Conversion applied by `pd.to_datetime` on a row whose date parses to `d`:
the raw record with its `Review_Date` replaced by the parsed timestamp. -/
def toReview (r : RawRecord) (d : Nat) : TPReview :=
  { Review_Id := r.Review_Id
    Reviewer_Name := r.Reviewer_Name
    Review_Title := r.Review_Title
    Review_Rating := r.Review_Rating
    Review_Content := r.Review_Content
    Review_IP_Address := r.Review_IP_Address
    Business_Id := r.Business_Id
    Business_Name := r.Business_Name
    Reviewer_Id := r.Reviewer_Id
    Email_Address := r.Email_Address
    Reviewer_Country := r.Reviewer_Country
    Review_Date := some d }

/-- Accumulator form of pandas `drop_duplicates(subset=["Review_Id"],
keep="first")` (load_data.py line 48): walk the rows in order, keeping a row
iff its id has not been seen before. -/
def dropDupAux (seen : List String) : List RawRecord → List RawRecord
  | [] => []
  | r :: rest =>
    if r.Review_Id ∈ seen then dropDupAux seen rest
    else r :: dropDupAux (r.Review_Id :: seen) rest

/-- Pandas `df.drop_duplicates(subset=["Review_Id"], keep="first")`
(load_data.py line 48). -/
def drop_duplicates (df : List RawRecord) : List RawRecord := dropDupAux [] df

/-- The date-parsing pass of `clean_data` (load_data.py lines 51-52):
`pd.to_datetime(df["Review_Date"], errors="coerce")` followed by
`dropna(subset=["Review_Date"])`.  The parse function itself is external
library behaviour, so it is a parameter; `none` models NaT. -/
def parseDates (parse : String → Option Nat) (l : List RawRecord) : List TPReview :=
  l.filterMap (fun r => (parse r.Review_Date).map (toReview r))

/-- The rating predicate of `clean_data` (load_data.py line 56):
`isinstance(x, (int, float)) and 1 <= x <= 5`.  NaN is a float but both
comparisons with it are `False`; strings and `None` are not numeric. -/
def ratingOk : PyScalar → Bool
  | .pyInt n => decide (1 ≤ n) && decide (n ≤ 5)
  | .pyFloat q => decide (1 ≤ q) && decide (q ≤ 5)
  | .pyNaN => false
  | .pyStr _ => false
  | .pyNone => false

/-- The `clean_data` function of load_data.py (lines 31-59): drop duplicate
ids keeping the first occurrence, parse dates dropping failures, keep only
numeric ratings in `[1,5]`. -/
def clean_data (parse : String → Option Nat) (df : List RawRecord) : List TPReview :=
  (parseDates parse (drop_duplicates df)).filter (fun r => ratingOk r.Review_Rating)

/-- The spec-side description of the dedup step, following the claim wording
"drop every record whose review id already appeared earlier in the input,
keeping the first occurrence": keep each head and drop all later records
carrying the same id. -/
def dedupSpec : List RawRecord → List RawRecord
  | [] => []
  | r :: rest => r :: dedupSpec (rest.filter (fun x => !(x.Review_Id == r.Review_Id)))
termination_by l => l.length
decreasing_by
  simp only [List.length_cons]
  exact Nat.lt_succ_of_le (List.length_filter_le _ _)

/-- The persistent store: the `tp_reviews` table as a map from the primary key
`Review_Id` to the stored row. -/
abbrev Store := String → Option TPReview

/-- The empty `tp_reviews` table. -/
def emptyStore : Store := fun _ => none

/-- Effect of one row of the `INSERT ... ON CONFLICT ("Review_Id") DO UPDATE`
statement (load_data.py lines 92-96): if the key is absent the full row is
inserted; if present every non-key column is overwritten with the incoming
(`excluded`) value, which — since the key column already agrees — leaves the
stored row equal to the incoming record. -/
def insertRow (s : Store) (r : TPReview) : Store :=
  fun k => if k = r.Review_Id then some r else s k

/-- Effect of `conn.execute(stmt, batch)` (load_data.py line 96): the upsert
statement is executed once per parameter row, in list order. -/
def applyBatch (s : Store) (b : List TPReview) : Store := b.foldl insertRow s

/-- Fuel-indexed batching; `chunks` instantiates the fuel with the list length,
which suffices because every step consumes at least the head element. -/
def chunksAux (bsz : Nat) : Nat → List α → List (List α)
  | _, [] => []
  | 0, _ :: _ => []
  | fuel + 1, x :: xs => (x :: xs.take (bsz - 1)) :: chunksAux bsz fuel (xs.drop (bsz - 1))

/-- The batch decomposition `records[i : i + batch_size]` for
`i in range(0, len(records), batch_size)` (load_data.py lines 89-90), for a
positive batch size. -/
def chunks (bsz : Nat) (l : List α) : List (List α) := chunksAux bsz l.length l

/-- Result of one call to `upsert_records`: the durably committed store, the
number of `conn.execute` statements run, and whether the call returned
normally. -/
structure UpsertRun where
  durable : Store
  execCount : Nat
  ok : Bool

/-- The `upsert_records` function of load_data.py (lines 62-97).  The whole
batch loop runs inside `with engine.begin() as conn:` (line 88), a single
transaction that commits once when the block exits normally and rolls back if
any `conn.execute` raises.  `failAt = some k` injects a write failure at batch
index `k` (if that many batches exist): batches `0..k-1` execute, batch `k`
raises, the transaction rolls back, and the durable store is the initial one.
With no failure (or a failure index past the last batch) every batch executes
and the transaction commits. -/
def upsert_records (s : Store) (records : List TPReview) (bsz : Nat)
    (failAt : Option Nat) : UpsertRun :=
  let bs := chunks bsz records
  match failAt with
  | some k =>
    if k < bs.length then ⟨s, k + 1, false⟩
    else ⟨bs.foldl applyBatch s, bs.length, true⟩
  | none => ⟨bs.foldl applyBatch s, bs.length, true⟩

/-- The last record in the list whose `Review_Id` equals `k`. -/
def lastMatch (k : String) : List TPReview → Option TPReview
  | [] => none
  | r :: rest =>
    match lastMatch k rest with
    | some x => some x
    | none => if k = r.Review_Id then some r else none

/-- Result of one call to `load_csv_to_db`: the resulting store, whether a CSV
read error was logged, and whether the call returned without raising. -/
structure LoadOutcome where
  store : Store
  readErrorLogged : Bool
  completed : Bool

/-- The `load_csv_to_db` function of load_data.py (lines 100-159).  The
`pd.read_csv` + rename step is modelled by its outcome `csvResult`: on failure
the `except` branch (lines 131-133) logs the error and returns with the store
untouched; on success the rows are cleaned and upserted with the default batch
size 500, and an upsert failure is re-raised (lines 157-159), so `completed`
is the upsert's success flag. -/
def load_csv_to_db (csvResult : Except String (List RawRecord))
    (parse : String → Option Nat) (failAt : Option Nat) (s : Store) : LoadOutcome :=
  match csvResult with
  | .error _ => ⟨s, true, true⟩
  | .ok df =>
    let run := upsert_records s (clean_data parse df) 500 failAt
    ⟨run.durable, false, run.ok⟩

/-- The fixed CSV column list `CSV_COLUMNS` of main.py (lines 40-53). -/
def CSV_COLUMNS : List String :=
  ["Review_Id", "Reviewer_Name", "Review_Title", "Review_Rating", "Review_Content",
   "Review_IP_Address", "Business_Id", "Business_Name", "Reviewer_Id", "Email_Address",
   "Reviewer_Country", "Review_Date"]

/-- Python `csv.writer` QUOTE_MINIMAL test: a field is quoted iff it contains
the delimiter, the quote character, or a line-break character. -/
def needsQuote (s : String) : Bool :=
  s.any (fun c => c == ',' || c == '"' || c == '\r' || c == '\n')

/-- Python `csv.writer` quote escaping: each quote character is doubled. -/
def escapeQuotes (s : String) : String :=
  s.foldl (fun acc c => if c == '"' then acc ++ "\"\"" else acc.push c) ""

/-- Serialization of one CSV field by Python `csv.writer`. -/
def csvField (s : String) : String :=
  if needsQuote s then "\"" ++ escapeQuotes s ++ "\"" else s

/-- Serialization of one CSV row by `writer.writerow`: comma-joined fields
followed by the default `\r\n` line terminator. -/
def csvLine (fields : List String) : String :=
  String.intercalate "," (fields.map csvField) ++ "\r\n"

/-- Python `str()` applied by `csv.writer` to a rating scalar (`None` is
written as the empty field). -/
def scalarStr : PyScalar → String
  | .pyInt n => toString n
  | .pyFloat q => toString q
  | .pyNaN => "nan"
  | .pyStr s => s
  | .pyNone => ""

/-- A nullable text field as written by `csv.writer` (`None` becomes ""). -/
def optStr (o : Option String) : String := o.getD ""

/-- A nullable timestamp as written by `csv.writer`; `str(datetime)` is
abstracted as the decimal form of the tick count. -/
def dateStr : Option Nat → String
  | none => ""
  | some d => toString d

/-- The row extraction `[getattr(r, col, "") for col in CSV_COLUMNS]` of
main.py line 81, with each value stringified by `csv.writer`: the entity's
fields in the order of `CSV_COLUMNS`. -/
def rowValues (r : TPReview) : List String :=
  [r.Review_Id, optStr r.Reviewer_Name, optStr r.Review_Title, scalarStr r.Review_Rating,
   optStr r.Review_Content, optStr r.Review_IP_Address, optStr r.Business_Id,
   optStr r.Business_Name, optStr r.Reviewer_Id, optStr r.Email_Address,
   optStr r.Reviewer_Country, dateStr r.Review_Date]

/-- The row loop of the `stream_rows_for_stmt` generator (main.py lines
79-85): the StringIO buffer is written, its contents yielded as one chunk,
then truncated; since the buffer is emptied after every yield, each chunk
carries exactly one CSV line.  `buf` is the buffer content at loop entry. -/
def streamLoop (buf : String) : List TPReview → List String
  | [] => []
  | r :: rest => (buf ++ csvLine (rowValues r)) :: streamLoop "" rest

/-- The `stream_rows_for_stmt` generator of main.py (lines 56-91) as the list
of chunks it yields when the result set of the statement is `rows`: the header
line is written to the buffer and yielded first (lines 70-73), then the rows
are streamed. -/
def stream_rows_for_stmt (rows : List TPReview) : List String :=
  ("" ++ csvLine CSV_COLUMNS) :: streamLoop "" rows

/-- The `WHERE Business_Id = business_id` predicate of main.py line 117
(a NULL `Business_Id` matches nothing). -/
def businessMatch (business_id : String) (r : TPReview) : Bool :=
  r.Business_Id == some business_id

/-- The `WHERE Reviewer_Id = reviewer_id` predicate of main.py lines 140
(a NULL `Reviewer_Id` matches nothing). -/
def reviewerMatch (reviewer_id : String) (r : TPReview) : Bool :=
  r.Reviewer_Id == some reviewer_id

/-- The `business_reviews_csv` handler of main.py (lines 105-120): it filters
by business id and returns the streamed CSV chunks with no existence check.
`db` is the list of rows stored in the `tp_reviews` table. -/
def business_reviews_csv (db : List TPReview) (business_id : String) : List String :=
  stream_rows_for_stmt (db.filter (businessMatch business_id))

/-- The `user_reviews_csv` handler of main.py (lines 123-151): it first probes
`first()` on the filtered statement; with no match it raises HTTP 404 before
any stream is created, otherwise it returns the streamed CSV chunks for the
same statement.  `.error n` models `HTTPException(status_code=n)`. -/
def user_reviews_csv (db : List TPReview) (reviewer_id : String) :
    Except Nat (List String) :=
  match (db.filter (reviewerMatch reviewer_id)).head? with
  | none => .error 404
  | some _ => .ok (stream_rows_for_stmt (db.filter (reviewerMatch reviewer_id)))

/-- Session-lifecycle events of one run of the `stream_rows_for_stmt`
generator: `acquire` is `session = SessionLocal()` (main.py line 75), `emitChunk`
is a `yield` consumed by the client, `close` is `session.close()` in the
`finally` block (line 90). -/
inductive SEv where
  | acquire
  | emitChunk
  | close
  deriving Repr, DecidableEq

/-- How one run of the generator ends: `exhaust` — the consumer drains it;
`errorAt k` — the database raises while producing row `k` (k = 0 covers a
failure of `session.execute` itself); `closedAfter c` — the consumer abandons
the iteration after pulling `c` chunks and the generator is closed
(`GeneratorExit`). -/
inductive StreamExit where
  | exhaust
  | errorAt (k : Nat)
  | closedAfter (c : Nat)
  deriving Repr, DecidableEq

/-- The session-lifecycle trace of one run of `stream_rows_for_stmt` on result
set `rows`, from the generator's control flow (main.py lines 66-91): the
header chunk is yielded before the session is acquired; each produced row is
one chunk; on a mid-stream error the `except` branch logs and re-raises and
the `finally` block closes the session; on exhaustion the `finally` block
closes it; closing a never-started generator runs no code, and closing one
suspended at the header yield raises `GeneratorExit` there, before the
`try`/`finally` is entered and before any session exists, so nothing is
closed; closing one suspended inside the row loop triggers the `finally`
block.  A `closedAfter` count larger than the available chunks coincides with
exhaustion. -/
def streamTrace (rows : List TPReview) : StreamExit → List SEv
  | .exhaust =>
    SEv.emitChunk :: SEv.acquire :: (rows.map (fun _ => SEv.emitChunk)) ++ [SEv.close]
  | .errorAt k =>
    SEv.emitChunk :: SEv.acquire :: ((rows.take k).map (fun _ => SEv.emitChunk)) ++ [SEv.close]
  | .closedAfter 0 => []
  | .closedAfter 1 => [SEv.emitChunk]
  | .closedAfter (c + 2) =>
    SEv.emitChunk :: SEv.acquire :: ((rows.take (c + 1)).map (fun _ => SEv.emitChunk)) ++ [SEv.close]

/-- A sample stored row with identifier `i`, reviewer `u` and business `b`,
used to instantiate hypotheses at concrete inputs. -/
def mkReview (i u b : String) : TPReview :=
  { Review_Id := i
    Reviewer_Name := some "Test User"
    Review_Title := none
    Review_Rating := PyScalar.pyInt 5
    Review_Content := none
    Review_IP_Address := none
    Business_Id := some b
    Business_Name := none
    Reviewer_Id := some u
    Email_Address := none
    Reviewer_Country := none
    Review_Date := some 20230101 }

theorem chunksAux_flatten (bsz : Nat) :
    ∀ (fuel : Nat) (l : List α), l.length ≤ fuel → (chunksAux bsz fuel l).flatten = l := by
  intro fuel
  induction fuel with
  | zero =>
    intro l hl
    have : l = [] := List.eq_nil_of_length_eq_zero (Nat.le_zero.mp hl)
    subst this
    rfl
  | succ n ih =>
    intro l hl
    cases l with
    | nil => rfl
    | cons x xs =>
      have hx : (xs.drop (bsz - 1)).length ≤ n := by
        have h1 : (xs.drop (bsz - 1)).length ≤ xs.length := by
          simp [List.length_drop]
        have h2 : xs.length ≤ n := by
          simpa using hl
        exact h1.trans h2
      simp only [chunksAux, List.flatten_cons, ih _ hx]
      simp [List.take_append_drop]

theorem chunks_flatten (bsz : Nat) (l : List α) : (chunks bsz l).flatten = l :=
  chunksAux_flatten bsz l.length l (Nat.le_refl _)

theorem foldl_insertRow_apply (k : String) :
    ∀ (rs : List TPReview) (s : Store),
      (rs.foldl insertRow s) k
        = (match lastMatch k rs with
           | some r => some r
           | none => s k) := by
  intro rs
  induction rs with
  | nil => intro s; rfl
  | cons r rest ih =>
    intro s
    rw [List.foldl_cons, ih]
    cases hm : lastMatch k rest with
    | some x => simp [lastMatch, hm]
    | none =>
      simp only [lastMatch, hm, insertRow]
      by_cases hk : k = r.Review_Id <;> simp [hk]

theorem upsert_success_apply (s : Store) (records : List TPReview) (bsz : Nat) (k : String) :
    (upsert_records s records bsz none).durable k
      = (match lastMatch k records with
         | some r => some r
         | none => s k) := by
  have h1 : (upsert_records s records bsz none).durable
      = (chunks bsz records).foldl applyBatch s := rfl
  have h2 : (chunks bsz records).foldl applyBatch s
      = ((chunks bsz records).flatten).foldl insertRow s := by
    rw [List.foldl_flatten]
    rfl
  rw [h1, h2, chunks_flatten, foldl_insertRow_apply]


theorem dropDupAux_eq (l : List RawRecord) : ∀ seen : List String,
    dropDupAux seen l = dedupSpec (l.filter (fun x => decide (x.Review_Id ∉ seen))) := by
  induction l with
  | nil => intro seen; simp only [List.filter_nil]; rw [dropDupAux, dedupSpec.eq_1]
  | cons r rest ih =>
    intro seen
    have hfc : (r :: rest).filter (fun x => decide (x.Review_Id ∉ seen))
        = if decide (r.Review_Id ∉ seen) = true
          then r :: rest.filter (fun x => decide (x.Review_Id ∉ seen))
          else rest.filter (fun x => decide (x.Review_Id ∉ seen)) := by
      rw [List.filter_cons]
    by_cases h : r.Review_Id ∈ seen
    · rw [dropDupAux, if_pos h, hfc, if_neg (by simp [h])]
      exact ih seen
    · rw [dropDupAux, if_neg h, hfc, if_pos (by simp [h]), dedupSpec.eq_2,
        ih (r.Review_Id :: seen)]
      congr 1
      rw [List.filter_filter (fun x : RawRecord => decide (x.Review_Id ∉ seen)) rest]
      congr 1
      apply List.filter_congr
      intro x _
      by_cases hx : x.Review_Id = r.Review_Id <;>
        by_cases hs : x.Review_Id ∈ seen <;>
          simp [hx, hs, List.mem_cons]

theorem drop_duplicates_eq_dedupSpec (df : List RawRecord) :
    drop_duplicates df = dedupSpec df := by
  rw [drop_duplicates, dropDupAux_eq]
  congr 1
  apply List.filter_eq_self.mpr
  intro x _
  simp

theorem dedupSpec_sublist : (l : List RawRecord) → List.Sublist (dedupSpec l) l
  | [] => by rw [dedupSpec.eq_1]
  | r :: rest => by
    rw [dedupSpec.eq_2]
    exact List.Sublist.cons₂ r
      ((dedupSpec_sublist _).trans (List.filter_sublist rest))
termination_by l => l.length
decreasing_by
  simp only [List.length_cons]
  exact Nat.lt_succ_of_le (List.length_filter_le _ _)

theorem parseDates_ids_sublist (parse : String → Option Nat) (l : List RawRecord) :
    List.Sublist ((parseDates parse l).map (fun r => r.Review_Id))
      (l.map (fun r => r.Review_Id)) := by
  induction l with
  | nil => exact List.Sublist.refl _
  | cons r rest ih =>
    rw [parseDates, List.filterMap_cons]
    cases parse r.Review_Date with
    | none => exact ih.trans (List.sublist_cons_self _ _)
    | some d =>
      simp only [Option.map_some, List.map_cons]
      exact List.Sublist.cons₂ _ ih

theorem string_empty_append (s : String) : "" ++ s = s := rfl

theorem streamLoop_eq (rows : List TPReview) :
    streamLoop "" rows = rows.map (fun r => csvLine (rowValues r)) := by
  induction rows with
  | nil => rfl
  | cons r rest ih =>
    show ("" ++ csvLine (rowValues r)) :: streamLoop "" rest = _
    rw [ih, string_empty_append, List.map_cons]

theorem stream_rows_eq (rows : List TPReview) :
    stream_rows_for_stmt rows
      = csvLine CSV_COLUMNS :: rows.map (fun r => csvLine (rowValues r)) := by
  show ("" ++ csvLine CSV_COLUMNS) :: streamLoop "" rows = _
  rw [streamLoop_eq, string_empty_append]

/-- The two seeded rows of the repository's tests, used to instantiate
hypotheses at concrete inputs. -/
def sampleDb : List TPReview := [mkReview "1" "456" "biz1", mkReview "2" "789" "biz2"]

/-- Claim C1 counterexample: with two records, batch size 1 and a write
failure injected at the second batch, the claim predicts that the first batch
(the record with id "a") is durably applied; in the code the whole loop runs
inside one `engine.begin()` transaction, which rolls back, so the store does
not hold the record. -/
theorem upsert_partial_batch_commit_cex :
    (upsert_records emptyStore [mkReview "a" "u1" "b1", mkReview "b" "u2" "b2"] 1
        (some 1)).ok = false
    ∧ ¬ ((upsert_records emptyStore [mkReview "a" "u1" "b1", mkReview "b" "u2" "b2"] 1
        (some 1)).durable "a" = some (mkReview "a" "u1" "b1")) := by
  constructor
  · rfl
  · intro hcl
    cases hcl

/-- Claim C1 (amended): `upsert_records` runs every batch inside a single
transaction opened once for the whole call, so a write failure at any batch
index rolls the entire run back: the durable store is unchanged (no batch,
earlier or later, is applied) and the call fails; batching bounds statement
size only and is not a commit boundary. -/
theorem upsert_single_transaction (s : Store) (records : List TPReview) (bsz k : Nat)
    (hk : k < (chunks bsz records).length) :
    (upsert_records s records bsz (some k)).durable = s
    ∧ (upsert_records s records bsz (some k)).ok = false := by
  constructor <;> simp [upsert_records, hk]

theorem upsert_single_transaction_witness :
    1 < (chunks 1 [mkReview "a" "u1" "b1", mkReview "b" "u2" "b2"]).length
    ∧ ((upsert_records emptyStore [mkReview "a" "u1" "b1", mkReview "b" "u2" "b2"] 1
          (some 1)).durable = emptyStore
       ∧ (upsert_records emptyStore [mkReview "a" "u1" "b1", mkReview "b" "u2" "b2"] 1
          (some 1)).ok = false) :=
  ⟨by decide,
   upsert_single_transaction emptyStore [mkReview "a" "u1" "b1", mkReview "b" "u2" "b2"]
     1 1 (by decide)⟩

/-- Claim C2: after a successful `upsert_records` run the store maps each key
to the last input record carrying that `Review_Id` (insert if the key was
absent, full overwrite of the non-key fields if present), and keys that occur
in no input record keep their previous row. -/
theorem upsert_last_write_wins (s : Store) (records : List TPReview) (bsz : Nat)
    (_hb : 0 < bsz) (k : String) :
    (upsert_records s records bsz none).durable k
      = (match lastMatch k records with
         | some r => some r
         | none => s k)
    ∧ (upsert_records s records bsz none).ok = true :=
  ⟨upsert_success_apply s records bsz k, rfl⟩

theorem upsert_last_write_wins_witness :
    0 < 500
    ∧ ((upsert_records emptyStore [mkReview "a" "u1" "b1"] 500 none).durable "a"
        = (match lastMatch "a" [mkReview "a" "u1" "b1"] with
           | some r => some r
           | none => emptyStore "a")
      ∧ (upsert_records emptyStore [mkReview "a" "u1" "b1"] 500 none).ok = true) :=
  ⟨by decide, upsert_last_write_wins emptyStore [mkReview "a" "u1" "b1"] 500 (by decide) "a"⟩

/-- Claim C3: `clean_data` returns exactly the records obtained by, in order,
dropping later duplicates of each `Review_Id` (keeping the first occurrence,
as described by `dedupSpec`), dropping records whose date fails to parse, and
keeping only records whose rating is numeric and within `[1,5]` (never
coercing or clamping); the surviving records keep their input order (their
ids form a sublist of the input ids). -/
theorem clean_data_pipeline_spec (parse : String → Option Nat) (df : List RawRecord) :
    clean_data parse df
      = (parseDates parse (dedupSpec df)).filter (fun r => ratingOk r.Review_Rating)
    ∧ List.Sublist ((clean_data parse df).map (fun r => r.Review_Id))
        (df.map (fun r => r.Review_Id)) := by
  constructor
  · rw [clean_data, drop_duplicates_eq_dedupSpec]
  · have hs1 : List.Sublist ((clean_data parse df).map (fun r => r.Review_Id))
        ((parseDates parse (drop_duplicates df)).map (fun r => r.Review_Id)) :=
      (List.filter_sublist _).map _
    have hs2 := parseDates_ids_sublist parse (drop_duplicates df)
    have hs3 : List.Sublist ((drop_duplicates df).map (fun r => r.Review_Id))
        (df.map (fun r => r.Review_Id)) := by
      rw [drop_duplicates_eq_dedupSpec]
      exact (dedupSpec_sublist df).map _
    exact hs1.trans (hs2.trans hs3)

/-- Claim C4: ingestion (clean then upsert, as performed by `load_csv_to_db`
on a readable CSV) is idempotent: running it twice on the same input yields
the same final store as running it once, for every initial store. -/
theorem ingestion_idempotent (csvRows : List RawRecord) (parse : String → Option Nat)
    (s : Store) :
    (load_csv_to_db (.ok csvRows) parse none
        (load_csv_to_db (.ok csvRows) parse none s).store).store
      = (load_csv_to_db (.ok csvRows) parse none s).store := by
  funext k
  have happ : ∀ t : Store,
      (load_csv_to_db (.ok csvRows) parse none t).store k
        = (match lastMatch k (clean_data parse csvRows) with
           | some r => some r
           | none => t k) := by
    intro t
    show (upsert_records t (clean_data parse csvRows) 500 none).durable k = _
    exact upsert_success_apply t (clean_data parse csvRows) 500 k
  rw [happ ((load_csv_to_db (.ok csvRows) parse none s).store), happ s]
  cases hm : lastMatch k (clean_data parse csvRows) with
  | some r => simp [hm]
  | none => simp [hm, happ s]

/-- Claim C9: when the CSV read fails, `load_csv_to_db` takes the `except`
branch: the store is untouched, the error is logged, and the call returns
normally (no exception propagates). -/
theorem csv_read_failure_aborts_before_mutation (msg : String)
    (parse : String → Option Nat) (failAt : Option Nat) (s : Store) :
    (load_csv_to_db (.error msg) parse failAt s).store = s
    ∧ (load_csv_to_db (.error msg) parse failAt s).readErrorLogged = true
    ∧ (load_csv_to_db (.error msg) parse failAt s).completed = true :=
  ⟨rfl, rfl, rfl⟩

/-- Claim C10: on the empty record list `upsert_records` produces no batch,
so it executes no insert statement, returns normally (even under an injected
write fault, which has no statement to hit), and every row of the store is
unchanged. -/
theorem upsert_empty_noop (s : Store) (failAt : Option Nat) :
    (upsert_records s [] 500 failAt).durable = s
    ∧ (upsert_records s [] 500 failAt).execCount = 0
    ∧ (upsert_records s [] 500 failAt).ok = true := by
  cases failAt with
  | none => exact ⟨rfl, rfl, rfl⟩
  | some k =>
    have hnl : ¬ (k < (chunks 500 ([] : List TPReview)).length) := by
      show ¬ (k < 0)
      exact Nat.not_lt_zero k
    have hc : chunks 500 ([] : List TPReview) = [] := rfl
    refine ⟨?_, ?_, ?_⟩ <;> simp [upsert_records, hnl, hc]

/-- Claim C5: the user-reviews lookup fails with 404, before any stream is
created, exactly when no stored record matches the reviewer id; with at least
one match it returns the CSV stream with the header line and one line per
matching record. -/
theorem user_reviews_notfound_iff (db : List TPReview) (rid : String) :
    (user_reviews_csv db rid = .error 404 ↔ db.filter (reviewerMatch rid) = [])
    ∧ (∀ out, user_reviews_csv db rid = .ok out →
        out = csvLine CSV_COLUMNS
          :: (db.filter (reviewerMatch rid)).map (fun r => csvLine (rowValues r))) := by
  cases hh : (db.filter (reviewerMatch rid)).head? with
  | none =>
    have hnil : db.filter (reviewerMatch rid) = [] := by
      cases hf : db.filter (reviewerMatch rid) with
      | nil => rfl
      | cons a l => rw [hf] at hh; cases hh
    constructor
    · constructor
      · intro _; exact hnil
      · intro _
        simp only [user_reviews_csv, hh]
    · intro out hout
      simp only [user_reviews_csv, hh] at hout
      exact Except.noConfusion hout
  | some x =>
    have hne : ¬ (db.filter (reviewerMatch rid) = []) := by
      intro hf
      rw [hf] at hh
      cases hh
    constructor
    · constructor
      · intro herr
        simp only [user_reviews_csv, hh] at herr
        exact Except.noConfusion herr
      · intro hf
        exact absurd hf hne
    · intro out hout
      simp only [user_reviews_csv, hh, Except.ok.injEq] at hout
      rw [← hout]
      exact stream_rows_eq _

theorem user_reviews_notfound_iff_witness :
    stream_rows_for_stmt (sampleDb.filter (reviewerMatch "789"))
      = csvLine CSV_COLUMNS
        :: (sampleDb.filter (reviewerMatch "789")).map (fun r => csvLine (rowValues r)) :=
  (user_reviews_notfound_iff sampleDb "789").2
    (stream_rows_for_stmt (sampleDb.filter (reviewerMatch "789"))) rfl

/-- Claim C6: the business-reviews lookup has no existence check: for a
business id with no matching stored record it returns (successfully) the
stream consisting of exactly the header line and no data lines. -/
theorem business_reviews_missing_header_only (db : List TPReview) (bid : String)
    (h : db.filter (businessMatch bid) = []) :
    business_reviews_csv db bid = [csvLine CSV_COLUMNS] := by
  show stream_rows_for_stmt (db.filter (businessMatch bid)) = _
  rw [h, stream_rows_eq]
  rfl

theorem business_reviews_missing_header_only_witness :
    sampleDb.filter (businessMatch "nope") = []
    ∧ business_reviews_csv sampleDb "nope" = [csvLine CSV_COLUMNS] :=
  ⟨by decide, business_reviews_missing_header_only sampleDb "nope" (by decide)⟩

/-- Claim C7: every stream produced by the query service yields exactly one
header chunk before any data chunk, the header names the fixed columns in
order, and every data chunk serializes the entity's fields in exactly that
column order. -/
theorem csv_stream_header_and_column_order (rows : List TPReview) :
    stream_rows_for_stmt rows
      = csvLine ["Review_Id", "Reviewer_Name", "Review_Title", "Review_Rating",
          "Review_Content", "Review_IP_Address", "Business_Id", "Business_Name",
          "Reviewer_Id", "Email_Address", "Reviewer_Country", "Review_Date"]
        :: rows.map (fun r => csvLine
          [r.Review_Id, optStr r.Reviewer_Name, optStr r.Review_Title,
           scalarStr r.Review_Rating, optStr r.Review_Content,
           optStr r.Review_IP_Address, optStr r.Business_Id, optStr r.Business_Name,
           optStr r.Reviewer_Id, optStr r.Email_Address, optStr r.Reviewer_Country,
           dateStr r.Review_Date]) :=
  stream_rows_eq rows

/-- Claim C8: in every run of the streaming generator the session is released
exactly once per acquisition: the trace has equally many `acquire` and `close`
events, never more than one, and any run that acquires the session closes it
exactly once — covering normal exhaustion, an error raised mid-stream, and
abandonment of the iteration by the consumer. -/
theorem stream_session_released_once (rows : List TPReview) (ex : StreamExit) :
    (streamTrace rows ex).count SEv.close = (streamTrace rows ex).count SEv.acquire
    ∧ (streamTrace rows ex).count SEv.close ≤ 1
    ∧ (SEv.acquire ∈ streamTrace rows ex → (streamTrace rows ex).count SEv.close = 1) := by
  have hrc : ∀ n : Nat, (List.replicate n SEv.emitChunk).count SEv.close = 0 := by
    intro n
    rw [List.count_replicate]
    rfl
  have hra : ∀ n : Nat, (List.replicate n SEv.emitChunk).count SEv.acquire = 0 := by
    intro n
    rw [List.count_replicate]
    rfl
  cases ex with
  | exhaust =>
    refine ⟨?_, ?_, fun _ => ?_⟩ <;>
      simp [streamTrace, List.count_cons, List.count_append, hrc, hra]
  | errorAt k =>
    refine ⟨?_, ?_, fun _ => ?_⟩ <;>
      simp [streamTrace, List.count_cons, List.count_append, hrc, hra]
  | closedAfter c =>
    match c with
    | 0 => exact ⟨rfl, by simp [streamTrace], fun h => by simp [streamTrace] at h⟩
    | 1 => exact ⟨rfl, by simp [streamTrace], fun h => by simp [streamTrace] at h⟩
    | c + 2 =>
      refine ⟨?_, ?_, fun _ => ?_⟩ <;>
        simp [streamTrace, List.count_cons, List.count_append, hrc, hra]

theorem stream_session_released_once_witness :
    (streamTrace [mkReview "1" "456" "biz1"] StreamExit.exhaust).count SEv.close = 1 :=
  (stream_session_released_once [mkReview "1" "456" "biz1"] StreamExit.exhaust).2.2
    (by decide)
